import Mathlib

/-!
Verification development for a repository with two utility scripts:

* generate_voice_stop_cue.py : synthesizes a short descending sine tone
  with a quadratic fade-out and serializes it as a mono 16-bit PCM WAV file.
* svg-to-png.py : iterates a fixed list of icon sizes and asks an external
  rasterization library to render each SVG source into a PNG.

The Python float computations are embedded over the real numbers; the
Python builtin int conversion (truncation toward zero) is modelled by
pythonInt below.
-/

namespace VoiceStopCue

/-- Truncation toward zero, the semantics of the Python builtin int
applied to a real value. -/
noncomputable def pythonInt (x : ℝ) : ℤ := if 0 ≤ x then ⌊x⌋ else ⌈x⌉

/-- The parameters of generate_wav in generate_voice_stop_cue.py:
duration (seconds), start frequency, end frequency (Hz) and sample rate. -/
structure ToneSpec where
  duration : ℝ
  start_freq : ℝ
  end_freq : ℝ
  sample_rate : ℕ

/-- The default arguments of generate_wav. -/
def defaultSpec : ToneSpec := ⟨0.25, 800, 400, 44100⟩

/-- num_samples = int(sample_rate * duration), as an integer. -/
noncomputable def numSamplesZ (s : ToneSpec) : ℤ := pythonInt ((s.sample_rate : ℝ) * s.duration)

/-- The number of loop iterations of the sample loop: range of a negative
number is empty, so the count is the nonnegative part of numSamplesZ. -/
noncomputable def num_samples (s : ToneSpec) : ℕ := (numSamplesZ s).toNat

/-- progress = i / num_samples, the normalized position of sample i. -/
noncomputable def progress (s : ToneSpec) (i : ℕ) : ℝ :=
  (i : ℝ) / (num_samples s : ℝ)

/-- freq = start_freq + (end_freq - start_freq) * progress. -/
noncomputable def freq (s : ToneSpec) (i : ℕ) : ℝ :=
  s.start_freq + (s.end_freq - s.start_freq) * progress s i

/-- sample = math.sin(2 * math.pi * freq * t) with t = i / sample_rate. -/
noncomputable def sample (s : ToneSpec) (i : ℕ) : ℝ :=
  Real.sin (2 * Real.pi * freq s i * ((i : ℝ) / (s.sample_rate : ℝ)))

/-- fade_out = math.pow(1 - progress, 2). -/
noncomputable def fade_out (s : ToneSpec) (i : ℕ) : ℝ :=
  (1 - progress s i) ^ 2

/-- amplitude = sample * fade_out * 0.3. -/
noncomputable def amplitude (s : ToneSpec) (i : ℕ) : ℝ :=
  sample s i * fade_out s i * 0.3

/-- sample_int = int(amplitude * 32767). -/
noncomputable def sample_int (s : ToneSpec) (i : ℕ) : ℤ :=
  pythonInt (amplitude s i * 32767)

/-- Little-endian byte encoding of a 16-bit unsigned value
(struct.pack format H). -/
def u16le (x : ℕ) : List ℕ := [x % 256, x / 256 % 256]

/-- Little-endian byte encoding of a 32-bit unsigned value
(struct.pack format I). -/
def u32le (x : ℕ) : List ℕ :=
  [x % 256, x / 256 % 256, x / 65536 % 256, x / 16777216 % 256]

/-- Little-endian two-complement byte encoding of a signed 16-bit value
(struct.pack format h). -/
def s16le (z : ℤ) : List ℕ := u16le (z % 65536).toNat

/-- wav_header = struct.pack(4sI4s, RIFF, 36 + num_samples * 2, WAVE). -/
noncomputable def wav_header (s : ToneSpec) : List ℕ :=
  [82, 73, 70, 70] ++ u32le (36 + num_samples s * 2) ++ [87, 65, 86, 69]

/-- fmt_chunk = struct.pack(4sIHHIIHH, fmt , 16, 1, 1, sample_rate,
sample_rate * 2, 2, 16). -/
def fmt_chunk (s : ToneSpec) : List ℕ :=
  [102, 109, 116, 32] ++ u32le 16 ++ u16le 1 ++ u16le 1 ++
    u32le s.sample_rate ++ u32le (s.sample_rate * 2) ++ u16le 2 ++ u16le 16

/-- data_header = struct.pack(4sI, data, num_samples * 2). -/
noncomputable def data_header (s : ToneSpec) : List ℕ :=
  [100, 97, 116, 97] ++ u32le (num_samples s * 2)

/-- The concatenation of the packed 16-bit samples, in loop order. -/
noncomputable def samplesBytes (s : ToneSpec) : List ℕ :=
  (List.range (num_samples s)).flatMap (fun i => s16le (sample_int s i))

/-- The full byte stream written to the output file: header, fmt chunk,
data header, then the samples. -/
noncomputable def wavBytes (s : ToneSpec) : List ℕ :=
  wav_header s ++ fmt_chunk s ++ data_header s ++ samplesBytes s

/-- The result of generate_wav viewed as a fallible computation. The
source validates nothing, but struct.pack with the unsigned format I
raises struct.error on a negative value: the RIFF size 36 + num_samples*2
in the first pack call and the data size num_samples*2 in the third are
negative exactly when num_samples is negative, and the exception is
raised before the output file is opened, so no file is written then. All
pack calls with format h stay in range on every index the loop reaches.
The upper out-of-range check of pack, at 2 ^ 32 and above, is left
unmodelled: the byte encoders above wrap there instead. -/
noncomputable def generate_wav (s : ToneSpec) : Except String (List ℕ) :=
  if 36 + numSamplesZ s * 2 < 0 ∨ numSamplesZ s * 2 < 0 then
    Except.error "struct.error: argument out of range"
  else Except.ok (wavBytes s)

/-- A run of the script writing to a given output path; the byte content
does not depend on the path. -/
noncomputable def generate_run (filename : String) (s : ToneSpec) :
    String × List ℕ :=
  (filename, wavBytes s)

/-- The sample count as the specification defines it:
floor(sampleRateHz * durationSeconds). -/
noncomputable def specSampleCount (s : ToneSpec) : ℤ :=
  ⌊(s.sample_rate : ℝ) * s.duration⌋

/-- progress = i / sampleCount following the wording of the specification. -/
noncomputable def specProgress (s : ToneSpec) (i : ℕ) : ℝ :=
  (i : ℝ) / (specSampleCount s : ℝ)

/-- freq = startFrequencyHz + (endFrequencyHz - startFrequencyHz) * progress
following the wording of the specification. -/
noncomputable def specFreq (s : ToneSpec) (i : ℕ) : ℝ :=
  s.start_freq + (s.end_freq - s.start_freq) * specProgress s i

/-- The per-sample value as the specification claims it, with round to
nearest: round(sin(2 pi freq t) * (1 - progress)^2 * 0.3 * 32767). -/
noncomputable def specSampleRound (s : ToneSpec) (i : ℕ) : ℤ :=
  round (Real.sin (2 * Real.pi * specFreq s i * ((i : ℝ) / (s.sample_rate : ℝ))) *
    (1 - specProgress s i) ^ 2 * 0.3 * 32767)

/-- The per-sample value of the specification formula with the rounding
replaced by truncation toward zero, as the source actually computes. -/
noncomputable def specSampleTrunc (s : ToneSpec) (i : ℕ) : ℤ :=
  pythonInt (Real.sin (2 * Real.pi * specFreq s i * ((i : ℝ) / (s.sample_rate : ℝ))) *
    (1 - specProgress s i) ^ 2 * 0.3 * 32767)

/-- The WAV byte layout exactly as the specification describes it, field by
field: RIFF tag, riff size 36 + sampleCount*2, WAVE tag; fmt subchunk of
size 16 with format code 1, one channel, the sample rate, byte rate
sampleRateHz*2, block align 2, 16 bits per sample; data tag, data size
sampleCount*2, then the little-endian signed 16-bit samples in order. -/
noncomputable def wavLayoutSpec (s : ToneSpec) : List ℕ :=
  [82, 73, 70, 70] ++ u32le (36 + (specSampleCount s).toNat * 2) ++
    [87, 65, 86, 69] ++
    [102, 109, 116, 32] ++ u32le 16 ++ u16le 1 ++ u16le 1 ++
    u32le s.sample_rate ++ u32le (s.sample_rate * 2) ++ u16le 2 ++ u16le 16 ++
    [100, 97, 116, 97] ++ u32le ((specSampleCount s).toNat * 2) ++
    (List.range (specSampleCount s).toNat).flatMap
      (fun i => s16le (sample_int s i))

/-- A concrete specification on which rounding and truncation disagree:
duration 1/6 s, constant frequency 1 Hz, sample rate 12 Hz. -/
noncomputable def ceSpec : ToneSpec := ⟨1 / 6, 1, 1, 12⟩

/-- The invalid input of Scenario B: duration 0 with the other defaults. -/
def zeroSpec : ToneSpec := ⟨0, 800, 400, 44100⟩

end VoiceStopCue

namespace SvgToPng

/-- The environment the script runs against: whether the cairosvg import
succeeds, which icon-size.svg sources exist, and whether the external
svg2png call succeeds for a given size. -/
structure Env where
  cairosvgAvailable : Bool
  svgExists : ℕ → Bool
  rasterizeOk : ℕ → Bool

/-- What the loop body does for one size: report a missing source, report a
conversion error, or generate the PNG for that size. -/
inductive Event where
  | notFound (size : ℕ)
  | generated (size : ℕ)
  | errorConverting (size : ℕ)
deriving DecidableEq, Repr

/-- sizes = [16, 32, 48, 128]. -/
def sizes : List ℕ := [16, 32, 48, 128]

/-- One iteration of the loop: if the svg file does not exist, report not
found and continue; otherwise call svg2png, reporting success or the
caught exception. -/
def processSize (env : Env) (size : ℕ) : Event :=
  if ¬ env.svgExists size then Event.notFound size
  else if env.rasterizeOk size then Event.generated size
  else Event.errorConverting size

/-- The whole script: if the cairosvg import fails, sys.exit(1) before any
per-size work; otherwise process every size in order and fall off the end
of the script with exit code 0. Returns the per-size events and the exit
code. -/
def runScript (env : Env) : List Event × ℕ :=
  if env.cairosvgAvailable then (sizes.map (processSize env), 0) else ([], 1)

/-- The sizes whose PNG files the script actually writes. -/
def producedSizes (env : Env) : List ℕ :=
  (runScript env).1.filterMap
    (fun e => match e with | Event.generated s => some s | _ => none)

/-- The environment of Scenario C: cairosvg available, every conversion
succeeds, but icon-48.svg is missing. -/
def envMissing48 : Env :=
  ⟨true, fun s => decide (s ≠ 48), fun _ => true⟩

/-- The environment of Scenario D: the cairosvg import fails. -/
def envNoCairo : Env :=
  ⟨false, fun _ => true, fun _ => true⟩

end SvgToPng

namespace VoiceStopCue

lemma pythonInt_of_nonneg {x : ℝ} (h : 0 ≤ x) : pythonInt x = ⌊x⌋ :=
  if_pos h

lemma pythonInt_nonpos {x : ℝ} (h : x ≤ 0) : pythonInt x ≤ 0 := by
  unfold pythonInt
  split
  · exact le_trans (Int.floor_mono h) (le_of_eq Int.floor_zero)
  · exact Int.ceil_le.mpr (by exact_mod_cast h)

lemma abs_pythonInt_le {x : ℝ} {m : ℤ} (h : |x| < (m : ℝ) + 1) :
    |pythonInt x| ≤ m := by
  unfold pythonInt
  split
  case isTrue hx =>
    have h1 : ⌊x⌋ < m + 1 := Int.floor_lt.mpr (by push_cast; linarith [le_abs_self x])
    have h2 : 0 ≤ ⌊x⌋ := Int.floor_nonneg.mpr hx
    rw [abs_of_nonneg h2]; omega
  case isFalse hx =>
    push_neg at hx
    have h1 : -(m + 1) < ⌈x⌉ := by
      apply Int.lt_ceil.mpr
      push_cast
      linarith [(abs_lt.mp h).1]
  -- the bound on the absolute value gives the two-sided bound directly
    have h2 : ⌈x⌉ ≤ 0 := Int.ceil_le.mpr (by exact_mod_cast le_of_lt hx)
    rw [abs_of_nonpos h2]; omega

end VoiceStopCue

namespace VoiceStopCue

lemma numSamplesZ_eq_floor {s : ToneSpec} (h : 0 ≤ (s.sample_rate : ℝ) * s.duration) :
    numSamplesZ s = ⌊(s.sample_rate : ℝ) * s.duration⌋ := by
  rw [numSamplesZ, pythonInt_of_nonneg h]

lemma num_samples_cast {s : ToneSpec} (h : 0 ≤ (s.sample_rate : ℝ) * s.duration) :
    (num_samples s : ℤ) = specSampleCount s := by
  rw [num_samples, numSamplesZ_eq_floor h, specSampleCount,
    Int.toNat_of_nonneg (Int.floor_nonneg.mpr h)]

lemma num_samples_of_nonpos {s : ToneSpec} (h : s.duration ≤ 0) :
    num_samples s = 0 := by
  have hx : (s.sample_rate : ℝ) * s.duration ≤ 0 :=
    mul_nonpos_iff.mpr (Or.inl ⟨Nat.cast_nonneg _, h⟩)
  rw [num_samples]
  exact Int.toNat_of_nonpos (pythonInt_nonpos hx)

lemma numSamplesZ_of_duration_zero (s : ToneSpec) (h : s.duration = 0) :
    numSamplesZ s = 0 := by
  rw [numSamplesZ, h, mul_zero, pythonInt_of_nonneg le_rfl, Int.floor_zero]

lemma generate_wav_ok_of_nonneg {s : ToneSpec} (h : 0 ≤ numSamplesZ s) :
    generate_wav s = Except.ok (wavBytes s) := by
  rw [generate_wav, if_neg (by omega)]

lemma generate_wav_error_of_neg {s : ToneSpec} (h : numSamplesZ s < 0) :
    generate_wav s = Except.error "struct.error: argument out of range" := by
  rw [generate_wav, if_pos (Or.inr (by omega))]

lemma default_num_samples : num_samples defaultSpec = 11025 := by
  have h : ((defaultSpec.sample_rate : ℝ)) * defaultSpec.duration = 11025 := by
    norm_num [defaultSpec]
  rw [num_samples, numSamplesZ, h, pythonInt_of_nonneg (by norm_num)]
  norm_num
  omega

lemma length_flatMap_s16le (f : ℕ → ℤ) (n : ℕ) :
    ((List.range n).flatMap (fun i => s16le (f i))).length = 2 * n := by
  induction n with
  | zero => simp
  | succ n ih =>
      rw [List.range_succ, List.flatMap_append, List.length_append, ih]
      simp [s16le, u16le]
      ring

lemma wavBytes_length (s : ToneSpec) :
    (wavBytes s).length = 44 + 2 * num_samples s := by
  rw [wavBytes, samplesBytes]
  simp [wav_header, fmt_chunk, data_header, u32le, u16le,
    length_flatMap_s16le (fun i => sample_int s i)]
  omega

end VoiceStopCue

namespace VoiceStopCue

lemma fade_out_nonneg (s : ToneSpec) (i : ℕ) : 0 ≤ fade_out s i := by
  rw [fade_out]; positivity

lemma abs_amplitude_le (s : ToneSpec) (i : ℕ) :
    |amplitude s i| ≤ 0.3 * fade_out s i := by
  have hs : |sample s i| ≤ 1 := by rw [sample]; exact Real.abs_sin_le_one _
  have hf : 0 ≤ fade_out s i := fade_out_nonneg s i
  have : |amplitude s i| = |sample s i| * (fade_out s i * 0.3) := by
    rw [amplitude, show sample s i * fade_out s i * 0.3 =
      sample s i * (fade_out s i * 0.3) from by ring, abs_mul,
      abs_of_nonneg (mul_nonneg hf (by norm_num))]
  rw [this]
  nlinarith [abs_nonneg (sample s i)]

lemma fade_out_le_one {s : ToneSpec} {i : ℕ} (h : i < num_samples s) :
    fade_out s i ≤ 1 := by
  have hn : (0 : ℝ) < (num_samples s : ℝ) := by
    exact_mod_cast Nat.lt_of_le_of_lt (Nat.zero_le i) h
  have hp0 : 0 ≤ progress s i := by
    rw [progress]; exact div_nonneg (Nat.cast_nonneg _) (le_of_lt hn)
  have hp1 : progress s i ≤ 1 := by
    rw [progress, div_le_one hn]
    exact_mod_cast Nat.le_of_lt h
  rw [fade_out]
  nlinarith

lemma abs_sample_int_le {s : ToneSpec} {i : ℕ} (h : i < num_samples s) :
    |sample_int s i| ≤ 9830 := by
  rw [sample_int]
  apply abs_pythonInt_le
  have h1 : |amplitude s i * 32767| = |amplitude s i| * 32767 := by
    rw [abs_mul]; norm_num
  rw [h1]
  have h2 := abs_amplitude_le s i
  have h3 := fade_out_le_one h
  have h4 := fade_out_nonneg s i
  push_cast
  nlinarith

end VoiceStopCue

namespace VoiceStopCue

lemma ceSpec_num_samples : num_samples ceSpec = 2 := by
  have h : ((ceSpec.sample_rate : ℝ)) * ceSpec.duration = 2 := by
    norm_num [ceSpec]
  rw [num_samples, numSamplesZ, h, pythonInt_of_nonneg (by norm_num)]
  norm_num
  omega

lemma ceSpec_specSampleCount : specSampleCount ceSpec = 2 := by
  have h : ((ceSpec.sample_rate : ℝ)) * ceSpec.duration = 2 := by
    norm_num [ceSpec]
  rw [specSampleCount, h]
  norm_num

lemma ceSpec_progress : progress ceSpec 1 = 1 / 2 := by
  rw [progress, ceSpec_num_samples]
  norm_num

lemma ceSpec_freq : freq ceSpec 1 = 1 := by
  rw [freq]
  norm_num [ceSpec]

lemma ceSpec_rate : ((ceSpec.sample_rate : ℕ) : ℝ) = 12 := by
  norm_num [ceSpec]

lemma ceSpec_sample : sample ceSpec 1 = 1 / 2 := by
  have harg : 2 * Real.pi * freq ceSpec 1 * (((1 : ℕ) : ℝ) / ((ceSpec.sample_rate : ℕ) : ℝ)) =
      Real.pi / 6 := by
    rw [ceSpec_freq, ceSpec_rate]
    push_cast
    ring
  rw [sample, harg, Real.sin_pi_div_six]

lemma ceSpec_fade_out : fade_out ceSpec 1 = 1 / 4 := by
  rw [fade_out, ceSpec_progress]
  norm_num

lemma ceSpec_amp_val : amplitude ceSpec 1 * 32767 = 98301 / 80 := by
  rw [amplitude, ceSpec_sample, ceSpec_fade_out]
  norm_num

lemma ceSpec_sample_int : sample_int ceSpec 1 = 1228 := by
  rw [sample_int, ceSpec_amp_val, pythonInt_of_nonneg (by norm_num)]
  norm_num

lemma ceSpec_specProgress : specProgress ceSpec 1 = 1 / 2 := by
  rw [specProgress, ceSpec_specSampleCount]
  norm_num

lemma ceSpec_specFreq : specFreq ceSpec 1 = 1 := by
  rw [specFreq]
  norm_num [ceSpec]

lemma ceSpec_specSampleRound : specSampleRound ceSpec 1 = 1229 := by
  have harg : 2 * Real.pi * specFreq ceSpec 1 * (((1 : ℕ) : ℝ) / ((ceSpec.sample_rate : ℕ) : ℝ)) =
      Real.pi / 6 := by
    rw [ceSpec_specFreq, ceSpec_rate]
    push_cast
    ring
  rw [specSampleRound, harg, Real.sin_pi_div_six, ceSpec_specProgress, round_eq]
  norm_num

end VoiceStopCue

namespace VoiceStopCue

/-- C1 (amended): for every valid specification and sample index, the
generated 16-bit sample equals the specification formula
sin(2 pi freq t) * (1 - progress)^2 * 0.3 * 32767 converted with
truncation toward zero (the Python int builtin), not with rounding to
nearest. -/
theorem C1_sample_formula_trunc (s : ToneSpec) (i : ℕ)
    (hd : 0 < s.duration) (_hr : 0 < s.sample_rate) :
    sample_int s i = specSampleTrunc s i := by
  have h0 : 0 ≤ (s.sample_rate : ℝ) * s.duration :=
    mul_nonneg (Nat.cast_nonneg _) hd.le
  have hcast : (specSampleCount s : ℝ) = (num_samples s : ℝ) := by
    exact_mod_cast (num_samples_cast h0).symm
  rw [sample_int, amplitude, sample, fade_out, freq, progress,
    specSampleTrunc, specFreq, specProgress, hcast]

/-- C1 witness: the amended formula at the default specification, index 0. -/
theorem C1_sample_formula_trunc_witness :
    sample_int defaultSpec 0 = specSampleTrunc defaultSpec 0 :=
  C1_sample_formula_trunc defaultSpec 0 (by norm_num [defaultSpec])
    (by norm_num [defaultSpec])

/-- C1 counterexample: the specification given by duration 1/6 s, constant
frequency 1 Hz and sample rate 12 Hz is valid and has sampleCount 2; at
sample index 1 the claimed round-to-nearest value is 1229 while the code
computes 1228, so the claim as stated is false. -/
theorem C1_round_counterexample :
    0 < ceSpec.duration ∧ 0 < ceSpec.sample_rate ∧ 1 < num_samples ceSpec ∧
    specSampleRound ceSpec 1 = 1229 ∧ sample_int ceSpec 1 = 1228 ∧
    sample_int ceSpec 1 ≠ specSampleRound ceSpec 1 :=
  ⟨by norm_num [ceSpec], by norm_num [ceSpec],
   by rw [ceSpec_num_samples]; norm_num,
   ceSpec_specSampleRound, ceSpec_sample_int,
   by rw [ceSpec_sample_int, ceSpec_specSampleRound]; decide⟩

/-- C2: for every valid specification the serialized WAV output is exactly
the layout of the specification: RIFF tag, riff size 36 + sampleCount*2,
WAVE tag, an fmt subchunk of size 16 with format code 1, one channel, the
sample rate, byte rate sampleRateHz*2, block align 2 and 16 bits per
sample, then a data subchunk of size sampleCount*2 followed by the
little-endian signed 16-bit samples in order. -/
theorem C2_wav_layout (s : ToneSpec)
    (hd : 0 < s.duration) (_hr : 0 < s.sample_rate) :
    wavBytes s = wavLayoutSpec s := by
  have h0 : 0 ≤ (s.sample_rate : ℝ) * s.duration :=
    mul_nonneg (Nat.cast_nonneg _) hd.le
  have h1 := num_samples_cast h0
  have hn : (specSampleCount s).toNat = num_samples s := by omega
  rw [wavBytes, wav_header, fmt_chunk, data_header, samplesBytes,
    wavLayoutSpec, hn]
  simp [List.append_assoc]

/-- C2 witness: the layout equality at the default specification. -/
theorem C2_wav_layout_witness :
    wavBytes defaultSpec = wavLayoutSpec defaultSpec :=
  C2_wav_layout defaultSpec (by norm_num [defaultSpec])
    (by norm_num [defaultSpec])

/-- C3 counterexample: for input duration 0 the generator does not fail
with an invalid-argument condition; it returns successfully and the file
it writes is the 44-byte header-only WAV, so a file is written. -/
theorem C3_no_validation_counterexample :
    generate_wav zeroSpec = Except.ok (wavBytes zeroSpec) ∧
    (wavBytes zeroSpec).length = 44 := by
  refine ⟨generate_wav_ok_of_nonneg ?_, ?_⟩
  · rw [numSamplesZ_of_duration_zero zeroSpec (by norm_num [zeroSpec])]
  · rw [wavBytes_length, num_samples_of_nonpos (by norm_num [zeroSpec])]

/-- C3 (amended): the generator performs no up-front argument validation:
for input duration 0 it does not fail; it generates zero samples and
successfully writes the 44-byte header-only WAV file. -/
theorem C3_zero_duration_no_failure (s : ToneSpec)
    (h : s.duration = 0) :
    generate_wav s = Except.ok (wavBytes s) ∧ num_samples s = 0 ∧
    (wavBytes s).length = 44 := by
  have h0 := numSamplesZ_of_duration_zero s h
  have hn : num_samples s = 0 := num_samples_of_nonpos h.le
  refine ⟨generate_wav_ok_of_nonneg (by rw [h0]), hn, ?_⟩
  rw [wavBytes_length, hn]

/-- C3 witness: the amended behaviour at the Scenario B input. -/
theorem C3_zero_duration_no_failure_witness :
    generate_wav zeroSpec = Except.ok (wavBytes zeroSpec) ∧
    num_samples zeroSpec = 0 ∧ (wavBytes zeroSpec).length = 44 :=
  C3_zero_duration_no_failure zeroSpec (by norm_num [zeroSpec])

/-- C4: for every valid specification the sample count is
floor(sampleRateHz * durationSeconds); for the defaults the count is
11025, the data payload is 22050 bytes and the whole file is 22094
bytes. -/
theorem C4_sample_count :
    (∀ s : ToneSpec, 0 < s.duration → 0 < s.sample_rate →
      (num_samples s : ℤ) = ⌊(s.sample_rate : ℝ) * s.duration⌋) ∧
    num_samples defaultSpec = 11025 ∧
    (samplesBytes defaultSpec).length = 22050 ∧
    (wavBytes defaultSpec).length = 22094 := by
  refine ⟨fun s hd _hr => ?_, default_num_samples, ?_, ?_⟩
  · simpa [specSampleCount] using
      num_samples_cast (mul_nonneg (Nat.cast_nonneg _) hd.le)
  · rw [samplesBytes, length_flatMap_s16le, default_num_samples]
  · rw [wavBytes_length, default_num_samples]

/-- C4 witness: the floor formula at the default specification. -/
theorem C4_sample_count_witness :
    (num_samples defaultSpec : ℤ) =
      ⌊((defaultSpec.sample_rate : ℝ)) * defaultSpec.duration⌋ :=
  C4_sample_count.1 defaultSpec (by norm_num [defaultSpec])
    (by norm_num [defaultSpec])

/-- C5: every generated sample lies in the signed 16-bit range, so packing
with struct format h never overflows. -/
theorem C5_range_safety (s : ToneSpec) (i : ℕ) (h : i < num_samples s) :
    -32768 ≤ sample_int s i ∧ sample_int s i ≤ 32767 := by
  have h1 : |sample_int s i| ≤ 9830 := abs_sample_int_le h
  have h2 : |sample_int s i| ≤ 32767 := le_trans h1 (by norm_num)
  obtain ⟨ha, hb⟩ := abs_le.mp h2
  exact ⟨by omega, hb⟩

/-- C5 witness: the range bound at the default specification, index 0. -/
theorem C5_range_safety_witness :
    -32768 ≤ sample_int defaultSpec 0 ∧ sample_int defaultSpec 0 ≤ 32767 :=
  C5_range_safety defaultSpec 0 (by rw [default_num_samples]; norm_num)

/-- C8: the generator is deterministic: the bytes written depend only on
the tone parameters, so any two runs with the same specification produce
byte-identical output. -/
theorem C8_deterministic (s : ToneSpec) (f₁ f₂ : String) :
    (generate_run f₁ s).2 = (generate_run f₂ s).2 := rfl

/-- C9: the fade-out envelope is exactly 1 at sample index 0, the sample
amplitude is bounded by 0.3 times the envelope everywhere, and the
envelope vanishes at the sample-count boundary, so the amplitude tends to
0 as the index approaches the sample count. -/
theorem C9_envelope_boundary (s : ToneSpec) :
    fade_out s 0 = 1 ∧
    (∀ i : ℕ, |amplitude s i| ≤ 0.3 * fade_out s i) ∧
    (0 < num_samples s → fade_out s (num_samples s) = 0) := by
  refine ⟨?_, fun i => abs_amplitude_le s i, fun hn => ?_⟩
  · simp [fade_out, progress]
  · rw [fade_out, progress,
      div_self (by exact_mod_cast Nat.pos_iff_ne_zero.mp hn)]
    norm_num

/-- C9 witness: the envelope boundary facts at the default specification. -/
theorem C9_envelope_boundary_witness :
    fade_out defaultSpec 0 = 1 ∧
    |amplitude defaultSpec 0| ≤ 0.3 * fade_out defaultSpec 0 ∧
    fade_out defaultSpec (num_samples defaultSpec) = 0 :=
  ⟨(C9_envelope_boundary defaultSpec).1,
   (C9_envelope_boundary defaultSpec).2.1 0,
   (C9_envelope_boundary defaultSpec).2.2
     (by rw [default_num_samples]; norm_num)⟩

/-- C10: the peak amplitude fraction is the fixed literal 0.3, whose
scaled full-scale value truncates to 9830, and every generated sample has
absolute value at most 9830, thirty percent of full scale. -/
theorem C10_thirty_percent_cap :
    ⌊(0.3 * 32767 : ℝ)⌋ = 9830 ∧
    ∀ (s : ToneSpec) (i : ℕ), i < num_samples s → |sample_int s i| ≤ 9830 :=
  ⟨by norm_num, fun s i h => abs_sample_int_le h⟩

/-- C10 witness: the thirty percent cap at the default specification,
index 0. -/
theorem C10_thirty_percent_cap_witness :
    |sample_int defaultSpec 0| ≤ 9830 :=
  C10_thirty_percent_cap.2 defaultSpec 0
    (by rw [default_num_samples]; norm_num)

end VoiceStopCue

namespace SvgToPng

/-- C6: whenever the cairosvg dependency is available the script exits 0
regardless of per-size outcomes, every size in the fixed list gets exactly
its own locally handled event in order; in the Scenario C environment with
icon-48.svg missing, PNG files are produced for sizes 16, 32 and 128, size
48 reports not found, and the exit code is 0. -/
theorem C6_per_size_failures_local (env : Env)
    (h : env.cairosvgAvailable = true) :
    (runScript env).2 = 0 ∧
    (runScript env).1 = sizes.map (processSize env) ∧
    producedSizes envMissing48 = [16, 32, 128] ∧
    (runScript envMissing48).1 =
      [Event.generated 16, Event.generated 32, Event.notFound 48,
        Event.generated 128] ∧
    (runScript envMissing48).2 = 0 := by
  refine ⟨?_, ?_, by decide, by decide, by decide⟩ <;> simp [runScript, h]

/-- C6 witness: the Scenario C environment has cairosvg available, so the
theorem applies to it. -/
theorem C6_per_size_failures_local_witness :
    (runScript envMissing48).2 = 0 ∧
    (runScript envMissing48).1 = sizes.map (processSize envMissing48) ∧
    producedSizes envMissing48 = [16, 32, 128] ∧
    (runScript envMissing48).1 =
      [Event.generated 16, Event.generated 32, Event.notFound 48,
        Event.generated 128] ∧
    (runScript envMissing48).2 = 0 :=
  C6_per_size_failures_local envMissing48 rfl

/-- C7: if the cairosvg import fails the script exits with code 1 before
any per-size work: the event list is empty and no PNG file is produced. -/
theorem C7_missing_dependency_exits_1 (env : Env)
    (h : env.cairosvgAvailable = false) :
    runScript env = ([], 1) ∧ producedSizes env = [] := by
  have h1 : runScript env = ([], 1) := by rw [runScript, h]; simp
  refine ⟨h1, ?_⟩
  rw [producedSizes, h1]
  simp

/-- C7 witness: the Scenario D environment, where cairosvg is missing. -/
theorem C7_missing_dependency_exits_1_witness :
    runScript envNoCairo = ([], 1) ∧ producedSizes envNoCairo = [] :=
  C7_missing_dependency_exits_1 envNoCairo rfl

end SvgToPng
